import Mathlib

/-!
Verification of the `MultiModalDialog` websocket client
(`src/multimodal_client.py`) against its natural-language specification.

The embedding is shallow: Python dict/JSON values become the inductive
`Json`; byte strings become `List Nat` with every element `< 256`;
`json.dumps` becomes `Json.dumps`; `base64.b64encode` / `base64.b64decode`
become `b64encode` / `b64decode`; the client object becomes the structure
`MultiModalDialog`.  Each outbound method returns the list of JSON
envelopes handed to `ws.send` during the call (empty when the guard
`if self.ws:` fails).  The inbound dispatcher `_on_message` takes the
outcome of `json.loads` (`none` = `JSONDecodeError`, i.e. the `except`
branch that replaces the value with `{}`) and returns either the list of
callback notifications it fires, in order, or the Python exception it
raises.  JSON parsing itself is out of scope (a given primitive), so the
dispatcher is modelled on parse outcomes, exactly as the code after the
`try/except` operates on the parsed value.
-/

/-- A JSON value, as produced by Python's `json.loads` / consumed by
`json.dumps`.  Objects are field lists in insertion order (Python dicts
preserve insertion order); numbers are restricted to integers, the only
numbers this client ever serializes. -/
inductive Json where
  | null : Json
  | bool : Bool → Json
  | num : Int → Json
  | str : String → Json
  | arr : List Json → Json
  | obj : List (String × Json) → Json
deriving Repr

/-- One hex digit, lower case, as Python's `json.dumps` emits in `\uXXXX`
escapes. -/
def hexDigit (n : Nat) : Char :=
  if n < 10 then Char.ofNat (48 + n) else Char.ofNat (97 + (n - 10))

/-- `\uXXXX` escape body for a code unit below 0x10000. -/
def hex4 (n : Nat) : String :=
  String.mk [hexDigit (n / 4096 % 16), hexDigit (n / 256 % 16),
             hexDigit (n / 16 % 16), hexDigit (n % 16)]

/-- Escape one character the way Python's `json.dumps` does with its
default `ensure_ascii=True`: `"` and `\` get a backslash, control
characters and non-ASCII characters become `\uXXXX` (a surrogate pair
above 0xFFFF), everything else is copied through. -/
def jsonEscapeChar (c : Char) : String :=
  let n := c.toNat
  if c = '"' then "\\\""
  else if c = '\\' then "\\\\"
  else if n < 32 ∨ n > 126 then
    if n < 65536 then "\\u" ++ hex4 n
    else
      let m := n - 65536
      "\\u" ++ hex4 (55296 + m / 1024) ++ "\\u" ++ hex4 (56320 + m % 1024)
  else String.singleton c

/-- A JSON string literal: quote and escape, as `json.dumps` renders
`str` values and object keys. -/
def jsonQuote (s : String) : String :=
  "\"" ++ String.join (s.toList.map jsonEscapeChar) ++ "\""

mutual

/-- Serialization of a `Json` value to text, modelling Python's
`json.dumps` with its default separators `", "` and `": "`. -/
def Json.dumps : Json → String
  | Json.null => "null"
  | Json.bool true => "true"
  | Json.bool false => "false"
  | Json.num n => toString n
  | Json.str s => jsonQuote s
  | Json.arr xs => "[" ++ dumpsArr xs ++ "]"
  | Json.obj fs => "\x7b" ++ dumpsObj fs ++ "\x7d"

/-- Comma-joined serialization of array elements. -/
def dumpsArr : List Json → String
  | [] => ""
  | [x] => Json.dumps x
  | x :: xs => Json.dumps x ++ ", " ++ dumpsArr xs

/-- Comma-joined serialization of object fields (`"key": value`). -/
def dumpsObj : List (String × Json) → String
  | [] => ""
  | [(k, v)] => jsonQuote k ++ ": " ++ Json.dumps v
  | (k, v) :: fs => jsonQuote k ++ ": " ++ Json.dumps v ++ ", " ++ dumpsObj fs

end

/-! ## Base64 (`base64.b64encode` / `base64.b64decode`) -/

/-- The standard base64 alphabet character for a sextet `s < 64`:
`A`-`Z`, `a`-`z`, `0`-`9`, `+`, `/`. -/
def encChar (s : Nat) : Char :=
  if s < 26 then Char.ofNat (65 + s)
  else if s < 52 then Char.ofNat (97 + (s - 26))
  else if s < 62 then Char.ofNat (48 + (s - 52))
  else if s = 62 then Char.ofNat 43
  else Char.ofNat 47

/-- Inverse of the base64 alphabet: the sextet a character stands for,
`none` for characters outside the alphabet. -/
def decChar (c : Char) : Option Nat :=
  let n := c.toNat
  if 65 ≤ n ∧ n ≤ 90 then some (n - 65)
  else if 97 ≤ n ∧ n ≤ 122 then some (n - 97 + 26)
  else if 48 ≤ n ∧ n ≤ 57 then some (n - 48 + 52)
  else if n = 43 then some 62
  else if n = 47 then some 63
  else none

/-- Base64 encoding of a byte sequence, as `base64.b64encode`: three
bytes become four alphabet characters; a final block of one or two bytes
is padded with `=`. -/
def b64encodeChars : List Nat → List Char
  | a :: b :: c :: rest =>
      encChar (a / 4) :: encChar (a % 4 * 16 + b / 16) ::
      encChar (b % 16 * 4 + c / 64) :: encChar (c % 64) :: b64encodeChars rest
  | [a, b] => [encChar (a / 4), encChar (a % 4 * 16 + b / 16), encChar (b % 16 * 4), '=']
  | [a] => [encChar (a / 4), encChar (a % 4 * 16), '=', '=']
  | [] => []

/-- `base64.b64encode(data).decode()`: the base64 text of a byte
sequence. -/
def b64encode (l : List Nat) : String :=
  String.mk (b64encodeChars l)

/-- Base64 decoding of properly padded base64 text, as
`base64.b64decode` on its output format: `none` models the
`binascii.Error` raised on malformed input. -/
def b64decodeChars : List Char → Option (List Nat)
  | c1 :: c2 :: c3 :: c4 :: rest =>
      if c3 = '=' then
        if c4 = '=' ∧ rest = [] then
          match decChar c1, decChar c2 with
          | some s1, some s2 => some [s1 * 4 + s2 / 16]
          | _, _ => none
        else none
      else if c4 = '=' then
        if rest = [] then
          match decChar c1, decChar c2, decChar c3 with
          | some s1, some s2, some s3 =>
              some [s1 * 4 + s2 / 16, s2 % 16 * 16 + s3 / 4]
          | _, _, _ => none
        else none
      else
        match decChar c1, decChar c2, decChar c3, decChar c4, b64decodeChars rest with
        | some s1, some s2, some s3, some s4, some bs =>
            some ((s1 * 4 + s2 / 16) :: (s2 % 16 * 16 + s3 / 4) :: (s3 % 4 * 64 + s4) :: bs)
        | _, _, _, _, _ => none
  | [] => some []
  | _ => none

/-- `base64.b64decode` on a string. -/
def b64decode (s : String) : Option (List Nat) :=
  b64decodeChars s.toList

/-! ## Data classes (source lines 9-40) -/

/-- `Upstream` dataclass: `type`, `mode` (default `"push2talk"`),
`audio_format` (default `"pcm"`). -/
structure Upstream where
  type : String
  mode : String := "push2talk"
  audio_format : String := "pcm"
deriving Repr, DecidableEq

/-- `Downstream` dataclass: optional `voice` and `sample_rate`. -/
structure Downstream where
  voice : Option String := none
  sample_rate : Option Int := none
deriving Repr, DecidableEq

/-- `Device` dataclass: `uuid`. -/
structure Device where
  uuid : String
deriving Repr, DecidableEq

/-- `ClientInfo` dataclass: `user_id` and `device`. -/
structure ClientInfo where
  user_id : String
  device : Device
deriving Repr, DecidableEq

/-- `RequestParameters` dataclass: upstream, downstream, client_info,
`sandbox` (default `False`), `directive` (default `"Start"`), optional
`dialog_id`. -/
structure RequestParameters where
  upstream : Upstream
  downstream : Downstream
  client_info : ClientInfo
  sandbox : Bool := false
  directive : String := "Start"
  dialog_id : Option String := none
deriving Repr, DecidableEq

/-- `RequestToRespondParameters` dataclass: `images`, an optional list
of dicts, default the empty list. -/
structure RequestToRespondParameters where
  images : Option (List Json) := some []
deriving Repr

/-- JSON for an `Option` field: Python `None` serializes as `null`. -/
def optJson (f : α → Json) : Option α → Json
  | some a => f a
  | none => Json.null

/-- `Upstream.__dict__` as JSON, fields in dataclass declaration
order. -/
def Upstream.toJson (u : Upstream) : Json :=
  Json.obj [("type", Json.str u.type), ("mode", Json.str u.mode),
            ("audio_format", Json.str u.audio_format)]

/-- `Downstream.__dict__` as JSON. -/
def Downstream.toJson (d : Downstream) : Json :=
  Json.obj [("voice", optJson Json.str d.voice),
            ("sample_rate", optJson Json.num d.sample_rate)]

/-- `Device.__dict__` as JSON. -/
def Device.toJson (d : Device) : Json :=
  Json.obj [("uuid", Json.str d.uuid)]

/-- `ClientInfo.__dict__` as JSON. -/
def ClientInfo.toJson (c : ClientInfo) : Json :=
  Json.obj [("user_id", Json.str c.user_id), ("device", c.device.toJson)]

/-- The JSON object that `json.dumps(request_params, default=lambda o:
o.__dict__)` serializes: each dataclass replaced by its `__dict__`,
fields in declaration order. -/
def RequestParameters.toJson (p : RequestParameters) : Json :=
  Json.obj [("upstream", p.upstream.toJson),
            ("downstream", p.downstream.toJson),
            ("client_info", p.client_info.toJson),
            ("sandbox", Json.bool p.sandbox),
            ("directive", Json.str p.directive),
            ("dialog_id", optJson Json.str p.dialog_id)]

/-- `RequestToRespondParameters.__dict__` as JSON. -/
def RequestToRespondParameters.toJson (p : RequestToRespondParameters) : Json :=
  Json.obj [("images", optJson Json.arr p.images)]

/-! ## The client (source lines 81-189) -/

/-- The underlying `websocket.WebSocketApp` handle, a transport
primitive.  The client never inspects `connected`; it records whether
the socket is still open at the transport level. -/
structure Ws where
  connected : Bool
deriving Repr, DecidableEq

/-- The `MultiModalDialog` object's state: constructor arguments plus
the `ws` handle, `None` until `start()` assigns it. -/
structure MultiModalDialog where
  workspace_id : String
  app_id : String
  request_params : RequestParameters
  url : String
  api_key : String
  dialog_id : Option String := none
  model : Option String := none
  ws : Option Ws := none
deriving Repr

/-- Python `a or b` on optional strings: `a` unless it is falsy
(`None` or the empty string), else `b`. -/
def pyOrStr (a b : Option String) : Option String :=
  match a with
  | some s => if s = "" then b else some s
  | none => b

/-- `start(dialog_id)` up to the point the connection is open:
`self.dialog_id = dialog_id or self.dialog_id`, then
`self.ws = websocket.WebSocketApp(...)` and `run_forever()` connects.
The handle starts connected; nothing in the class ever resets `ws` to
`None`. -/
def MultiModalDialog.start (d : MultiModalDialog) (dialog_id : Option String) :
    MultiModalDialog :=
  { d with dialog_id := pyOrStr dialog_id d.dialog_id,
           ws := some { connected := true } }

/-- The transport closes the underlying socket (server close, `stop`,
or failure).  `_on_close` (line 144) only invokes the callback; the
client's `ws` attribute keeps pointing at the now-closed handle. -/
def MultiModalDialog.transportClosed (d : MultiModalDialog) : MultiModalDialog :=
  { d with ws := d.ws.map (fun w => { w with connected := false }) }

/-- Whether the connection is open: a handle exists and its socket has
not been closed. -/
def MultiModalDialog.connOpen (d : MultiModalDialog) : Bool :=
  match d.ws with
  | some w => w.connected
  | none => false

/-- `_on_open` (lines 114-121): fires `on_connected`, sends the start
envelope `{"action": "start", "params": json.dumps(request_params,
default=...)}` — note the `params` value is itself a `json.dumps`
result, i.e. a JSON *string* — then fires `on_started(dialog_id or
"")`.  Returned as (callback notifications, envelopes handed to
`ws.send`). -/
def MultiModalDialog.on_open (d : MultiModalDialog) : List String × List Json :=
  (["on_connected", "on_started " ++ (pyOrStr d.dialog_id (some "")).getD ""],
   [Json.obj [("action", Json.str "start"),
              ("params", Json.str (Json.dumps d.request_params.toJson))]])

/-- `start_speech` (lines 147-149). -/
def MultiModalDialog.start_speech (d : MultiModalDialog) : List Json :=
  match d.ws with
  | none => []
  | some _ => [Json.obj [("action", Json.str "start_speech")]]

/-- `send_audio_data` (lines 151-154): base64-encode the bytes and send
`{"action": "audio", "data": <encoded>}`. -/
def MultiModalDialog.send_audio_data (d : MultiModalDialog) (speech_data : List Nat) :
    List Json :=
  match d.ws with
  | none => []
  | some _ => [Json.obj [("action", Json.str "audio"),
                         ("data", Json.str (b64encode speech_data))]]

/-- `stop_speech` (lines 156-158). -/
def MultiModalDialog.stop_speech (d : MultiModalDialog) : List Json :=
  match d.ws with
  | none => []
  | some _ => [Json.obj [("action", Json.str "stop_speech")]]

/-- `interrupt` (lines 160-162). -/
def MultiModalDialog.interrupt (d : MultiModalDialog) : List Json :=
  match d.ws with
  | none => []
  | some _ => [Json.obj [("action", Json.str "interrupt")]]

/-- `local_responding_started` (lines 164-166). -/
def MultiModalDialog.local_responding_started (d : MultiModalDialog) : List Json :=
  match d.ws with
  | none => []
  | some _ => [Json.obj [("action", Json.str "local_responding_started")]]

/-- `local_responding_ended` (lines 168-170). -/
def MultiModalDialog.local_responding_ended (d : MultiModalDialog) : List Json :=
  match d.ws with
  | none => []
  | some _ => [Json.obj [("action", Json.str "local_responding_ended")]]

/-- `stop` (lines 172-174). -/
def MultiModalDialog.stop (d : MultiModalDialog) : List Json :=
  match d.ws with
  | none => []
  | some _ => [Json.obj [("action", Json.str "stop")]]

/-- `get_dialog_state` (lines 176-178): the envelope's action string is
`"get_state"`. -/
def MultiModalDialog.get_dialog_state (d : MultiModalDialog) : List Json :=
  match d.ws with
  | none => []
  | some _ => [Json.obj [("action", Json.str "get_state")]]

/-- `request_to_respond` (lines 180-189): `params` is
`parameters.__dict__` when given, else the empty dict. -/
def MultiModalDialog.request_to_respond (d : MultiModalDialog)
    (request_type text : String) (parameters : Option RequestToRespondParameters) :
    List Json :=
  match d.ws with
  | none => []
  | some _ =>
      [Json.obj [("action", Json.str "request_to_respond"),
                 ("type", Json.str request_type),
                 ("text", Json.str text),
                 ("params", match parameters with
                            | some p => p.toJson
                            | none => Json.obj [])]]

/-! ## Inbound dispatch (`_on_message`, source lines 123-139) -/

/-- A callback notification fired on the handler, or the local
`ws.close()` the `close` action triggers. -/
inductive Event where
  | audioData : List Nat → Event
  | speechContent : Option Json → Event
  | replyContent : Option Json → Event
  | stateChanged : Option Json → Event
  | wsClose : Event
deriving Repr

/-- A Python exception escaping `_on_message`. -/
inductive PyErr where
  | attributeError : PyErr
  | typeError : PyErr
  | binasciiError : PyErr
deriving Repr, DecidableEq

/-- `dict.get(key)`: the first binding of the key, `None` (here:
`Option`) when absent. -/
def dictGet (fields : List (String × Json)) (key : String) : Option Json :=
  (fields.find? (fun kv => kv.1 = key)).map (fun kv => kv.2)

/-- The `if action == ...` chain of `_on_message` on a parsed dict:
returns the notifications fired, in order, or the exception raised.
`data.get("data", "")` defaults to the empty string; passing a
non-string to `b64decode` is a `TypeError`, malformed base64 a
`binascii.Error`. -/
def dispatch (fields : List (String × Json)) : Except PyErr (List Event) :=
  match dictGet fields "action" with
  | some (Json.str a) =>
      if a = "speech_audio" then
        match (dictGet fields "data").getD (Json.str "") with
        | Json.str s =>
            match b64decode s with
            | some bytes => Except.ok [Event.audioData bytes]
            | none => Except.error PyErr.binasciiError
        | _ => Except.error PyErr.typeError
      else if a = "speech_text" then
        Except.ok [Event.speechContent (dictGet fields "text")]
      else if a = "reply_text" then
        Except.ok [Event.replyContent (dictGet fields "text")]
      else if a = "state" then
        Except.ok [Event.stateChanged (dictGet fields "state")]
      else if a = "close" then
        Except.ok [Event.wsClose]
      else
        Except.ok []
  | _ => Except.ok []

/-- `_on_message`: `json.loads` outcome in (`none` = `JSONDecodeError`,
replaced by `{}` in the `except` branch).  `data.get("action")` on a
non-dict value (a parsed JSON array, string, number, boolean or null)
raises `AttributeError`, which is not caught. -/
def on_message (parsed : Option Json) : Except PyErr (List Event) :=
  let data := parsed.getD (Json.obj [])
  match data with
  | Json.obj fields => dispatch fields
  | _ => Except.error PyErr.attributeError

/-- The notifications a dispatch outcome fired: an exception interrupts
the handler before any notification of its branch fires. -/
def firedEvents : Except PyErr (List Event) → List Event
  | Except.ok evs => evs
  | Except.error _ => []

/-! ## Helper lemmas and example states -/

/-- The example `RequestParameters` from the source's `__main__` block. -/
def exampleParams : RequestParameters :=
  { upstream := { type := "AudioOnly" },
    downstream := { sample_rate := some 48000 },
    client_info := { user_id := "aabb", device := { uuid := "1234567890" } } }

/-- A freshly constructed dialog: `ws` is `None` until `start()`. -/
def exampleDialog : MultiModalDialog :=
  { workspace_id := "YOUR_WORKSPACE_ID", app_id := "YOUR_APP_ID",
    request_params := exampleParams,
    url := "wss://dashscope.aliyuncs.com/api/v1/multimodal/dialog",
    api_key := "YOUR_API_KEY" }

/-- The dialog after `start()` has opened the connection. -/
def openDialog : MultiModalDialog := exampleDialog.start none

/-- The dialog after the connection has closed again: `_on_close` fired
but `self.ws` still holds the (now closed) handle. -/
def closedDialog : MultiModalDialog := openDialog.transportClosed

/-- Modelled from the spec's words, for comparison with the source
serialization: the nested object shape the claim says `params` holds —
`upstream` (with `type`, `mode`, `audio_format`), `downstream` (with
`voice`, `sample_rate`), `client_info` (with `user_id` and `device`
holding `uuid`), then `sandbox`, `directive`, `dialog_id`. -/
def specSessionParamsObj (p : RequestParameters) : Json :=
  Json.obj
    [("upstream",
      Json.obj [("type", Json.str p.upstream.type),
                ("mode", Json.str p.upstream.mode),
                ("audio_format", Json.str p.upstream.audio_format)]),
     ("downstream",
      Json.obj [("voice", optJson Json.str p.downstream.voice),
                ("sample_rate", optJson Json.num p.downstream.sample_rate)]),
     ("client_info",
      Json.obj [("user_id", Json.str p.client_info.user_id),
                ("device", Json.obj [("uuid", Json.str p.client_info.device.uuid)])]),
     ("sandbox", Json.bool p.sandbox),
     ("directive", Json.str p.directive),
     ("dialog_id", optJson Json.str p.dialog_id)]

/-! ## Theorems -/

/-- Decoding the alphabet character of a sextet recovers the sextet. -/
theorem decChar_encChar : ∀ s : Nat, s < 64 → decChar (encChar s) = some s := by decide

/-- No sextet encodes to the padding character. -/
theorem encChar_ne_pad : ∀ s : Nat, s < 64 → encChar s ≠ '=' := by decide

/-! ## Claims -/

/-- Claim C9: for every byte sequence, base64-decoding the base64
encoding (as used by `send_audio_data` outbound and the `speech_audio`
dispatch inbound) reproduces the bytes exactly. -/
theorem c9_base64_roundtrip (l : List Nat) (h : ∀ x ∈ l, x < 256) :
    b64decode (b64encode l) = some l := by
  show b64decodeChars (String.mk (b64encodeChars l)).toList = some l
  show b64decodeChars (b64encodeChars l) = some l
  induction l using b64encodeChars.induct with
  | case1 a b c rest ih =>
    have ha : a < 256 := h a (by simp)
    have hb : b < 256 := h b (by simp)
    have hc : c < 256 := h c (by simp)
    have h1 : a / 4 < 64 := by omega
    have h2 : a % 4 * 16 + b / 16 < 64 := by omega
    have h3 : b % 16 * 4 + c / 64 < 64 := by omega
    have h4 : c % 64 < 64 := by omega
    have ihr := ih (by intro x hx; exact h x (by simp [hx]))
    simp only [b64encodeChars, b64decodeChars, encChar_ne_pad _ h3,
               encChar_ne_pad _ h4, if_false, decChar_encChar _ h1,
               decChar_encChar _ h2, decChar_encChar _ h3, decChar_encChar _ h4,
               ihr, if_neg]
    simp only [Option.some.injEq, List.cons.injEq]
    refine ⟨by omega, by omega, by omega, trivial⟩
  | case2 a b =>
    have ha : a < 256 := h a (by simp)
    have hb : b < 256 := h b (by simp)
    have h1 : a / 4 < 64 := by omega
    have h2 : a % 4 * 16 + b / 16 < 64 := by omega
    have h3 : b % 16 * 4 < 64 := by omega
    simp only [b64encodeChars, b64decodeChars, encChar_ne_pad _ h3, if_false,
               decChar_encChar _ h1, decChar_encChar _ h2, decChar_encChar _ h3,
               if_neg, if_pos, if_true, Option.some.injEq, List.cons.injEq]
    refine ⟨by omega, by omega, trivial⟩
  | case3 a =>
    have ha : a < 256 := h a (by simp)
    have h1 : a / 4 < 64 := by omega
    have h2 : a % 4 * 16 < 64 := by omega
    simp only [b64encodeChars, b64decodeChars, decChar_encChar _ h1,
               decChar_encChar _ h2, and_self, if_true, Option.some.injEq,
               List.cons.injEq]
    refine ⟨by omega, trivial⟩
  | case4 => rfl

/-- Claim C9 witness: the round-trip at the concrete bytes of
`b"hello"`. -/
theorem c9_witness : b64decode (b64encode [104, 101, 108, 108, 111]) =
    some [104, 101, 108, 108, 111] :=
  c9_base64_roundtrip [104, 101, 108, 108, 111] (by decide)

/-- Claim C4: an inbound JSON object whose `action` is
`"speech_audio"` with a base64 string in `data` fires exactly the
audio-data notification, carrying the base64 decoding of `data`. -/
theorem c4_speech_audio_dispatch (fields : List (String × Json)) (s : String)
    (b : List Nat)
    (hact : dictGet fields "action" = some (Json.str "speech_audio"))
    (hdata : dictGet fields "data" = some (Json.str s))
    (hdec : b64decode s = some b) :
    on_message (some (Json.obj fields)) = Except.ok [Event.audioData b] := by
  simp [on_message, dispatch, hact, hdata, hdec]

/-- Claim C4 witness: `{"action":"speech_audio","data":"aGVsbG8="}`
fires the audio notification with the bytes of `b"hello"`. -/
theorem c4_witness :
    on_message (some (Json.obj [("action", Json.str "speech_audio"),
                                ("data", Json.str "aGVsbG8=")])) =
      Except.ok [Event.audioData [104, 101, 108, 108, 111]] :=
  c4_speech_audio_dispatch _ "aGVsbG8=" _ rfl rfl rfl

/-- Claim C5: `send_audio_data(b)` while the connection is open sends
exactly `{"action": "audio", "data": base64(b)}`. -/
theorem c5_send_audio_data (d : MultiModalDialog) (b : List Nat)
    (h : d.connOpen = true) :
    d.send_audio_data b =
      [Json.obj [("action", Json.str "audio"),
                 ("data", Json.str (b64encode b))]] := by
  unfold MultiModalDialog.connOpen at h
  cases hws : d.ws with
  | none => rw [hws] at h; exact absurd h (by simp)
  | some w => simp [MultiModalDialog.send_audio_data, hws]

/-- Claim C5 witness: `send_audio_data(b"abc")` on the open dialog
sends `{"action": "audio", "data": "YWJj"}`. -/
theorem c5_witness : openDialog.connOpen = true ∧
    openDialog.send_audio_data [97, 98, 99] =
      [Json.obj [("action", Json.str "audio"), ("data", Json.str "YWJj")]] :=
  ⟨rfl, c5_send_audio_data openDialog [97, 98, 99] rfl⟩

/-- Claim C10: a recognized action with its payload field missing still
fires the matching notification with a default payload: `speech_audio`
without `data` yields the audio notification with empty bytes, and
`speech_text`, `reply_text` and `state` without their field yield their
notification with a `None` payload. -/
theorem c10_missing_payload_defaults :
    (∀ fields : List (String × Json),
       dictGet fields "action" = some (Json.str "speech_audio") →
       dictGet fields "data" = none →
       on_message (some (Json.obj fields)) = Except.ok [Event.audioData []]) ∧
    (∀ fields : List (String × Json),
       dictGet fields "action" = some (Json.str "speech_text") →
       dictGet fields "text" = none →
       on_message (some (Json.obj fields)) =
         Except.ok [Event.speechContent none]) ∧
    (∀ fields : List (String × Json),
       dictGet fields "action" = some (Json.str "reply_text") →
       dictGet fields "text" = none →
       on_message (some (Json.obj fields)) =
         Except.ok [Event.replyContent none]) ∧
    (∀ fields : List (String × Json),
       dictGet fields "action" = some (Json.str "state") →
       dictGet fields "state" = none →
       on_message (some (Json.obj fields)) =
         Except.ok [Event.stateChanged none]) := by
  refine ⟨?_, ?_, ?_, ?_⟩ <;> intro fields hact hfield <;>
    simp [on_message, dispatch, hact, hfield, b64decode, b64decodeChars]

/-- Claim C10 witness: the four recognized actions, each sent with no
payload field at all. -/
theorem c10_witness :
    on_message (some (Json.obj [("action", Json.str "speech_audio")])) =
      Except.ok [Event.audioData []] ∧
    on_message (some (Json.obj [("action", Json.str "speech_text")])) =
      Except.ok [Event.speechContent none] ∧
    on_message (some (Json.obj [("action", Json.str "reply_text")])) =
      Except.ok [Event.replyContent none] ∧
    on_message (some (Json.obj [("action", Json.str "state")])) =
      Except.ok [Event.stateChanged none] :=
  ⟨c10_missing_payload_defaults.1 _ rfl rfl,
   c10_missing_payload_defaults.2.1 _ rfl rfl,
   c10_missing_payload_defaults.2.2.1 _ rfl rfl,
   c10_missing_payload_defaults.2.2.2 _ rfl rfl⟩

/-- Claim C6 counterexample: the inbound message `5` is valid JSON with
no `action` field, yet `_on_message` is not a silent drop there: the
dict lookup on the parsed non-object raises `AttributeError` (the
underlying transport then surfaces it via the error callback), instead
of firing no notification and surfacing nothing. -/
theorem c6_counterexample :
    on_message (some (Json.num 5)) = Except.error PyErr.attributeError ∧
    on_message (some (Json.num 5)) ≠ Except.ok [] :=
  ⟨rfl, by simp [on_message]⟩

/-- Claim C6 (amended): an inbound message that is not valid JSON, or
that parses to a JSON *object* whose `action` is absent, not a string,
or not a recognized discriminator, fires no handler notification and
surfaces no error; valid non-object JSON instead raises
`AttributeError`. -/
theorem c6_unrecognized_drop :
    on_message none = Except.ok [] ∧
    (∀ fields : List (String × Json),
       (∀ s : String, dictGet fields "action" = some (Json.str s) →
          s ∉ (["speech_audio", "speech_text", "reply_text",
                "state", "close"] : List String)) →
       on_message (some (Json.obj fields)) = Except.ok []) := by
  refine ⟨rfl, ?_⟩
  intro fields hno
  simp only [on_message, Option.getD]
  cases hact : dictGet fields "action" with
  | none => simp [dispatch, hact]
  | some v =>
    cases v with
    | str a =>
      have := hno a hact
      simp only [List.mem_cons, List.not_mem_nil, or_false, not_or] at this
      obtain ⟨n1, n2, n3, n4, n5⟩ := this
      simp [dispatch, hact, n1, n2, n3, n4, n5]
    | null => simp [dispatch, hact]
    | bool b => simp [dispatch, hact]
    | num n => simp [dispatch, hact]
    | arr xs => simp [dispatch, hact]
    | obj fs => simp [dispatch, hact]

/-- Claim C6 witness: a parse failure and an unrecognized action are
both silently dropped. -/
theorem c6_witness :
    on_message none = Except.ok [] ∧
    on_message (some (Json.obj [("action", Json.str "bogus")])) =
      Except.ok [] :=
  ⟨c6_unrecognized_drop.1,
   c6_unrecognized_drop.2 [("action", Json.str "bogus")]
     (by intro s h; simp [dictGet] at h; subst h; decide)⟩

/-- Claim C7: every inbound message takes at most one row of the
routing table — the dispatcher fires at most one notification (or local
close), never two. -/
theorem c7_at_most_one_row (parsed : Option Json) :
    (firedEvents (on_message parsed)).length ≤ 1 := by
  cases parsed with
  | none => decide
  | some j =>
    cases j with
    | obj fields =>
      simp only [on_message, Option.getD]
      cases hact : dictGet fields "action" with
      | none => simp [dispatch, hact, firedEvents]
      | some v =>
        cases v with
        | str a =>
          simp only [dispatch, hact]
          by_cases h1 : a = "speech_audio"
          · simp only [h1, if_true, if_pos]
            cases hd : (dictGet fields "data").getD (Json.str "") with
            | str s => cases hdec : b64decode s <;> simp [hdec, firedEvents]
            | null => simp [firedEvents]
            | bool b => simp [firedEvents]
            | num n => simp [firedEvents]
            | arr xs => simp [firedEvents]
            | obj fs => simp [firedEvents]
          · by_cases h2 : a = "speech_text"
            · simp [h1, h2, firedEvents]
            · by_cases h3 : a = "reply_text"
              · simp [h1, h2, h3, firedEvents]
              · by_cases h4 : a = "state"
                · simp [h1, h2, h3, h4, firedEvents]
                · by_cases h5 : a = "close"
                  · simp [h1, h2, h3, h4, h5, firedEvents]
                  · simp [h1, h2, h3, h4, h5, firedEvents]
        | null => simp [dispatch, hact, firedEvents]
        | bool b => simp [dispatch, hact, firedEvents]
        | num n => simp [dispatch, hact, firedEvents]
        | arr xs => simp [dispatch, hact, firedEvents]
        | obj fs => simp [dispatch, hact, firedEvents]
    | null => decide
    | bool b => cases b <;> decide
    | num n => simp [on_message, firedEvents]
    | str s => simp [on_message, firedEvents]
    | arr xs => simp [on_message, firedEvents]

/-- The source serialization (`__dict__` in dataclass field order) and
the spec's nested shape agree field for field. -/
theorem toJson_eq_specShape (p : RequestParameters) :
    p.toJson = specSessionParamsObj p := rfl

/-- Claim C2 counterexample: the start envelope does not carry the
SessionParameters as a nested JSON object — `_on_open` runs
`json.dumps` on the parameters first, so `params` holds a JSON *string*
(the serialized text), and the envelope differs from the claimed
shape. -/
theorem c2_counterexample :
    (exampleDialog.on_open).2 ≠
      [Json.obj [("action", Json.str "start"),
                 ("params", specSessionParamsObj exampleDialog.request_params)]] := by
  simp [MultiModalDialog.on_open, specSessionParamsObj, exampleDialog, exampleParams]

/-- Claim C2 (amended): the start envelope is `action: "start"` with
`params` holding the JSON-string serialization (double encoding) of the
SessionParameters nested object — the object itself matches the claimed
shape verbatim, but arrives serialized as a string field. -/
theorem c2_start_envelope (d : MultiModalDialog) :
    (d.on_open).2 =
      [Json.obj [("action", Json.str "start"),
                 ("params",
                  Json.str (Json.dumps (specSessionParamsObj d.request_params)))]] :=
  rfl

/-- Claim C3 counterexample: `get_dialog_state` on an open connection
sends the envelope whose action discriminator is `"get_state"`, which
is not the method's name `get_dialog_state`. -/
theorem c3_counterexample :
    openDialog.get_dialog_state =
      [Json.obj [("action", Json.str "get_state")]] ∧
    (Json.str "get_state" : Json) ≠ Json.str "get_dialog_state" :=
  ⟨rfl, by simp⟩

/-- Claim C3 (amended): `get_dialog_state` while the connection is open
sends exactly one minimal envelope, whose action discriminator is
`"get_state"`, with no fields beyond `action`. -/
theorem c3_get_dialog_state (d : MultiModalDialog) (h : d.connOpen = true) :
    d.get_dialog_state = [Json.obj [("action", Json.str "get_state")]] := by
  unfold MultiModalDialog.connOpen at h
  cases hws : d.ws with
  | none => rw [hws] at h; exact absurd h (by simp)
  | some w => simp [MultiModalDialog.get_dialog_state, hws]

/-- Claim C3 witness: the amended statement at the open example
dialog. -/
theorem c3_witness : openDialog.connOpen = true ∧
    openDialog.get_dialog_state =
      [Json.obj [("action", Json.str "get_state")]] :=
  ⟨rfl, c3_get_dialog_state openDialog rfl⟩

/-- Claim C1 counterexample: after the connection has closed, the
connection is no longer open, yet `start_speech` still hands an
envelope to the transport — the guard `if self.ws:` only checks that a
handle exists, and nothing ever resets `self.ws` to `None`. -/
theorem c1_counterexample :
    closedDialog.connOpen = false ∧ closedDialog.start_speech ≠ [] := by
  refine ⟨rfl, ?_⟩
  show [Json.obj [("action", Json.str "start_speech")]] ≠ []
  simp

/-- Claim C1 (amended): the outbound action methods are silent no-ops,
handing nothing to the transport, exactly while the `ws` handle is
unset (before the first `start()`); once `start()` has assigned the
handle, every call hands its envelope to the transport's send, even
after the connection has closed. -/
theorem c1_guard_is_handle_presence (d : MultiModalDialog) (b : List Nat)
    (rt tx : String) (pr : Option RequestToRespondParameters) :
    (d.ws = none →
      d.start_speech = [] ∧ d.send_audio_data b = [] ∧ d.stop_speech = [] ∧
      d.interrupt = [] ∧ d.local_responding_started = [] ∧
      d.local_responding_ended = [] ∧ d.stop = [] ∧
      d.get_dialog_state = [] ∧ d.request_to_respond rt tx pr = []) ∧
    (∀ w, d.ws = some w →
      d.start_speech ≠ [] ∧ d.send_audio_data b ≠ [] ∧ d.stop_speech ≠ [] ∧
      d.interrupt ≠ [] ∧ d.local_responding_started ≠ [] ∧
      d.local_responding_ended ≠ [] ∧ d.stop ≠ [] ∧
      d.get_dialog_state ≠ [] ∧ d.request_to_respond rt tx pr ≠ []) := by
  constructor
  · intro h
    refine ⟨?_, ?_, ?_, ?_, ?_, ?_, ?_, ?_, ?_⟩ <;>
      simp [MultiModalDialog.start_speech, MultiModalDialog.send_audio_data,
            MultiModalDialog.stop_speech, MultiModalDialog.interrupt,
            MultiModalDialog.local_responding_started,
            MultiModalDialog.local_responding_ended, MultiModalDialog.stop,
            MultiModalDialog.get_dialog_state,
            MultiModalDialog.request_to_respond, h]
  · intro w h
    refine ⟨?_, ?_, ?_, ?_, ?_, ?_, ?_, ?_, ?_⟩ <;>
      simp [MultiModalDialog.start_speech, MultiModalDialog.send_audio_data,
            MultiModalDialog.stop_speech, MultiModalDialog.interrupt,
            MultiModalDialog.local_responding_started,
            MultiModalDialog.local_responding_ended, MultiModalDialog.stop,
            MultiModalDialog.get_dialog_state,
            MultiModalDialog.request_to_respond, h]

/-- Claim C1 witness: before `start()` the no-op holds; after the
connection has closed an envelope is still handed over. -/
theorem c1_witness :
    exampleDialog.start_speech = [] ∧ closedDialog.start_speech ≠ [] :=
  ⟨((c1_guard_is_handle_presence exampleDialog [] "" "" none).1 rfl).1,
   ((c1_guard_is_handle_presence closedDialog [] "" "" none).2
      { connected := false } rfl).1⟩

/-- Claim C8 counterexample: `start("")` does not override a stored
dialog id with the empty string — `dialog_id or self.dialog_id` treats
`""` as falsy and keeps the old id. -/
theorem c8_counterexample :
    (MultiModalDialog.start
       { exampleDialog with dialog_id := some "old" } (some "")).dialog_id
      = some "old" ∧
    (MultiModalDialog.start
       { exampleDialog with dialog_id := some "old" } (some "")).dialog_id
      ≠ some "" :=
  ⟨rfl, by decide⟩

/-- Claim C8 (amended): `start(d)` overrides the stored dialog id for
every non-empty string `d`; when no argument is passed, or the empty
string is passed, the previously stored dialog id is kept. -/
theorem c8_dialog_id_override :
    (∀ (d : MultiModalDialog) (s : String), s ≠ "" →
       (d.start (some s)).dialog_id = some s) ∧
    (∀ d : MultiModalDialog, (d.start none).dialog_id = d.dialog_id) ∧
    (∀ d : MultiModalDialog, (d.start (some "")).dialog_id = d.dialog_id) := by
  refine ⟨?_, ?_, ?_⟩
  · intro d s hs
    simp [MultiModalDialog.start, pyOrStr, hs]
  · intro d; rfl
  · intro d; rfl

/-- Claim C8 witness: a non-empty override takes effect; omitting the
argument keeps the stored id. -/
theorem c8_witness :
    (MultiModalDialog.start
       { exampleDialog with dialog_id := some "old" } (some "new")).dialog_id
      = some "new" ∧
    (MultiModalDialog.start
       { exampleDialog with dialog_id := some "old" } none).dialog_id
      = some "old" :=
  ⟨c8_dialog_id_override.1 _ "new" (by decide), c8_dialog_id_override.2.1 _⟩
